import Mathlib

/-!
# Verification of the billing-dyeing-hub core

A shallow embedding of the core logic of the billing/dyeing application:
GSTIN validation, document-number sequencing, tax calculation, ledger
recomputation and payment application, together with theorems settling the
specification claims about these components.

Strings are modelled as Lean `String` / `List Char`; monetary amounts as `ℚ`
(the database columns are exact decimals); the data store as explicit lists of
records, with the asynchronous store reads and writes turned into explicit
state passing.
-/

namespace Billing

/-! ## GSTIN validation (src/src/lib/gst-utils.ts) -/

/-- JavaScript `toUpperCase()` on the character list of a string. -/
def jsUpper (s : List Char) : List Char := s.map Char.toUpper

/-- JavaScript `trim()`: strip whitespace from both ends. -/
def jsTrim (s : List Char) : List Char :=
  ((s.dropWhile Char.isWhitespace).reverse.dropWhile Char.isWhitespace).reverse

/-- Character class `[A-Z]` of the GST regular expression. -/
def isUpperAZ (c : Char) : Bool := 'A' ≤ c && c ≤ 'Z'

/-- The structural test performed by `GST_REGEX`
(`^[0-9]{2}[A-Z]{5}[0-9]{4}[A-Z]{1}[1-9A-Z]{1}Z[0-9A-Z]{1}$`)
on a 15-character string: 2 digits, 5 letters, 4 digits, 1 letter,
1 character in 1-9 or A-Z, a literal Z, 1 trailing alphanumeric. -/
def gstRegexTest (l : List Char) : Bool :=
  match l with
  | [c0, c1, c2, c3, c4, c5, c6, c7, c8, c9, c10, c11, c12, c13, c14] =>
    c0.isDigit && c1.isDigit &&
    isUpperAZ c2 && isUpperAZ c3 && isUpperAZ c4 && isUpperAZ c5 && isUpperAZ c6 &&
    c7.isDigit && c8.isDigit && c9.isDigit && c10.isDigit &&
    isUpperAZ c11 &&
    (('1' ≤ c12 && c12 ≤ '9') || isUpperAZ c12) &&
    (c13 = 'Z') &&
    (c14.isDigit || isUpperAZ c14)
  | _ => false

/-- The `STATE_CODES` table of gst-utils.ts, in source order. -/
def STATE_CODES : List (String × String) :=
  [("01", "Jammu & Kashmir"),
   ("02", "Himachal Pradesh"),
   ("03", "Punjab"),
   ("04", "Chandigarh"),
   ("05", "Uttarakhand"),
   ("06", "Haryana"),
   ("07", "Delhi"),
   ("08", "Rajasthan"),
   ("09", "Uttar Pradesh"),
   ("10", "Bihar"),
   ("11", "Sikkim"),
   ("12", "Arunachal Pradesh"),
   ("13", "Nagaland"),
   ("14", "Manipur"),
   ("15", "Mizoram"),
   ("16", "Tripura"),
   ("17", "Meghalaya"),
   ("18", "Assam"),
   ("19", "West Bengal"),
   ("20", "Jharkhand"),
   ("21", "Odisha"),
   ("22", "Chhattisgarh"),
   ("23", "Madhya Pradesh"),
   ("24", "Gujarat"),
   ("26", "Dadra & Nagar Haveli and Daman & Diu"),
   ("27", "Maharashtra"),
   ("28", "Andhra Pradesh (Old)"),
   ("29", "Karnataka"),
   ("30", "Goa"),
   ("31", "Lakshadweep"),
   ("32", "Kerala"),
   ("33", "Tamil Nadu"),
   ("34", "Puducherry"),
   ("35", "Andaman & Nicobar Islands"),
   ("36", "Telangana"),
   ("37", "Andhra Pradesh"),
   ("38", "Ladakh"),
   ("97", "Other Territory")]

/-- Property access `STATE_CODES[stateCode]`: exact-key lookup. -/
def lookupState (code : String) : Option String :=
  (STATE_CODES.find? (fun p => p.1 = code)).map (fun p => p.2)

/-- Result of `validateGSTNumber`: either `isValid: false` with the error
string the source returns, or `isValid: true` with the extracted fields. -/
inductive GSTResult where
  | invalid (error : String)
  | valid (stateCode stateName pan entityCode : String)
  deriving DecidableEq, Repr

/-- Function `validateGSTNumber` of gst-utils.ts.  The empty string is the only falsy
string, so `!gstin` is `gstin = ""`; the table values are all nonempty, so
`!stateName` is exactly a failed lookup. -/
def validateGSTNumber (gstin : String) : GSTResult :=
  if gstin = "" then .invalid "GST number is required"
  else
    let u := jsTrim (jsUpper gstin.data)
    if u.length ≠ 15 then .invalid "GST number must be exactly 15 characters"
    else if ¬ gstRegexTest u then .invalid "Invalid GST number format"
    else
      let stateCode := String.mk (u.take 2)
      match lookupState stateCode with
      | none => .invalid "Invalid state code in GST number"
      | some stateName =>
          .valid stateCode stateName (String.mk ((u.drop 2).take 10))
            (String.mk ((u.drop 12).take 1))

/-! ## Document sequencer
(`generateInvoiceNumber` in the new-invoice page, `generateBillNumber` in the
new-dyeing-bill page).  Both read the single most recently created document of
their class and derive the next number from its stored number string. -/

/-- JavaScript `String.prototype.split(sep)` for a one-character separator. -/
def jsSplit (sep : Char) : List Char → List (List Char)
  | [] => [[]]
  | c :: rest =>
    match jsSplit sep rest with
    | [] => [[c]]
    | h :: t => if c = sep then [] :: h :: t else (c :: h) :: t

/-- Numeric value of a decimal digit character. -/
def digitVal (c : Char) : Nat := c.toNat - '0'.toNat

/-- JavaScript `parseInt` on the strings that can reach it here (no leading
whitespace or sign): the longest leading run of decimal digits, `none` for
`NaN` when there is no leading digit — including `parseInt(undefined)`. -/
def jsParseInt (l : List Char) : Option Nat :=
  let d := l.takeWhile Char.isDigit
  if d.isEmpty then none
  else some (d.foldl (fun a c => a * 10 + digitVal c) 0)

/-- Decimal digits of `n`, most significant first, with explicit fuel so that
the definition is structural (the fuel `n + 1` always suffices). -/
def natReprAux : Nat → Nat → List Char
  | 0, _ => []
  | fuel + 1, n =>
    if n < 10 then [Nat.digitChar n]
    else natReprAux fuel (n / 10) ++ [Nat.digitChar (n % 10)]

/-- JavaScript `Number.prototype.toString()` for a natural number:
its decimal representation. -/
def natRepr (n : Nat) : List Char := natReprAux (n + 1) n

/-- JavaScript `String.prototype.padStart(n, c)`. -/
def padStart (n : Nat) (c : Char) (l : List Char) : List Char :=
  List.replicate (n - l.length) c ++ l

/-- The shared sequencing logic of `generateInvoiceNumber` and
`generateBillNumber`, over the resolved document-number prefix.  The store
read (`order created_at desc, limit 1`) is passed in explicitly: an error, no
document, or the most recent stored number of the most recent document.  On an unparseable
suffix, `parseInt` gives `NaN`; `NaN + 1` is `NaN`, whose `toString()` is
`"NaN"`, which `padStart(5, "0")` turns into `"00NaN"`. -/
def generateNumber (pfx : List Char) (read : Except Unit (Option (List Char))) :
    List Char :=
  match read with
  | .error _ => pfx ++ '-' :: ['0', '0', '0', '0', '1']
  | .ok none => pfx ++ '-' :: ['0', '0', '0', '0', '1']
  | .ok (some last) =>
    let lastNumber : Option (List Char) := (jsSplit '-' last)[1]?
    let parsed : Option Nat :=
      match lastNumber with
      | none => none
      | some t => jsParseInt t
    let nextNumber : List Char :=
      match parsed with
      | none => padStart 5 '0' ['N', 'a', 'N']
      | some n => padStart 5 '0' (natRepr (n + 1))
    pfx ++ '-' :: nextNumber

/-- Resolution `companyProfile?.invoice_prefix || "INV"`: a missing profile or
an empty configured string falls back to the default. -/
def resolvedPfx (configured : Option (List Char)) (dflt : List Char) :
    List Char :=
  match configured with
  | none => dflt
  | some p => if p.isEmpty then dflt else p

/-- Function `generateInvoiceNumber` of the new-invoice page. -/
def generateInvoiceNumber (invoicePrefixCfg : Option (List Char))
    (read : Except Unit (Option (List Char))) : List Char :=
  generateNumber (resolvedPfx invoicePrefixCfg ['I', 'N', 'V']) read

/-- Function `generateBillNumber` of the new-dyeing-bill page. -/
def generateBillNumber (dyeingPrefixCfg : Option (List Char))
    (read : Except Unit (Option (List Char))) : List Char :=
  generateNumber (resolvedPfx dyeingPrefixCfg ['D', 'Y', 'E']) read

/-- The k-th document number of a class with the given resolved prefix:
the prefix, a dash, and the 5-digit zero-padded decimal of k. -/
def fmtNumber (pfx : List Char) (k : Nat) : List Char :=
  pfx ++ '-' :: padStart 5 '0' (natRepr k)

/-- Issuing `n` documents of one class, starting from an empty store, each
time reading the most recently created document (head of the newest-first
list) and inserting the generated number.  Returns the store, newest first. -/
def issueDocs (pfx : List Char) : Nat → List (List Char)
  | 0 => []
  | n + 1 =>
    let st := issueDocs pfx n
    generateNumber pfx (.ok st.head?) :: st

/-- The store after issuing `n` documents, written out in descending order of
creation: helper for reasoning about `issueDocs`. -/
def fmtDesc (pfx : List Char) : Nat → List (List Char)
  | 0 => []
  | k + 1 => fmtNumber pfx (k + 1) :: fmtDesc pfx k

/-! ## Data store
Rows of the `invoices`, `dyeing_bills`, `customers` and `payments` tables, as
used by the ledger recomputation and the payment modal.  Amounts are `ℚ`
(`DECIMAL(10,2)` columns). -/

/-- A row of `invoices`, restricted to the columns the core logic reads. -/
structure InvoiceRow where
  customer_id : String
  total_amount : ℚ
  paid_amount : ℚ
  deriving DecidableEq, Repr

/-- A row of `dyeing_bills`, restricted to the columns the core logic reads. -/
structure DyeingBillRow where
  customer_id : String
  total_amount : ℚ
  paid_amount : ℚ
  deriving DecidableEq, Repr

/-- A row of `customers`, restricted to the columns the core logic touches. -/
structure CustomerRow where
  id : String
  total_credit : ℚ
  deriving DecidableEq, Repr

/-- A row of `payments` as inserted by the payment modal. -/
structure PaymentRow where
  customer_id : String
  amount : ℚ
  payment_date : String
  payment_method : String
  notes : String
  created_by : String
  deriving DecidableEq, Repr

/-- The relevant slice of the database. -/
structure Store where
  invoices : List InvoiceRow
  dyeing_bills : List DyeingBillRow
  customers : List CustomerRow
  payments : List PaymentRow
  deriving DecidableEq, Repr

/-! ## Ledger recomputation (`updateCustomerCredit`)
The new-invoice page, the new-dyeing-bill page and the invoice-delete handler
all recompute the customer field `total_credit` the same way: fetch all invoices
and dyeing bills of the customer, total the billed and paid columns, and write
the difference back unconditionally. -/

/-- The reduce over the invoices of the customer:
`(acc, inv) => (billed + total_amount, paid + paid_amount)` from `(0, 0)`.
The `|| 0` null-coalescing in the source is the identity here because the
schema stores non-null numerics (`DECIMAL NOT NULL DEFAULT 0` / `DEFAULT 0`
written only with numbers by the app). -/
def invoiceTotals (s : Store) (customerId : String) : ℚ × ℚ :=
  (s.invoices.filter (fun i => i.customer_id = customerId)).foldl
    (fun acc inv => (acc.1 + inv.total_amount, acc.2 + inv.paid_amount)) (0, 0)

/-- The reduce over the dyeing bills of the customer. -/
def dyeingTotals (s : Store) (customerId : String) : ℚ × ℚ :=
  (s.dyeing_bills.filter (fun b => b.customer_id = customerId)).foldl
    (fun acc bill => (acc.1 + bill.total_amount, acc.2 + bill.paid_amount)) (0, 0)

/-- Value `pendingAmount = totalBilled - totalPaid` as computed by
`updateCustomerCredit`. -/
def pendingAmount (s : Store) (customerId : String) : ℚ :=
  let totalBilled := (invoiceTotals s customerId).1 + (dyeingTotals s customerId).1
  let totalPaid := (invoiceTotals s customerId).2 + (dyeingTotals s customerId).2
  totalBilled - totalPaid

/-- The write-back of `updateCustomerCredit`:
`update customers set total_credit = pendingAmount where id = customerId`. -/
def updateCustomerCredit (s : Store) (customerId : String) : Store :=
  { s with
    customers := s.customers.map (fun c =>
      if c.id = customerId then { c with total_credit := pendingAmount s customerId }
      else c) }

/-- Variant `updateCustomerCredit` of the dyeing-bill page, which additionally returns
`(totalBilled, totalPaid, pendingAmount)` to its caller. -/
def updateCustomerCreditDyeing (s : Store) (customerId : String) :
    Store × (ℚ × ℚ × ℚ) :=
  (updateCustomerCredit s customerId,
    ((invoiceTotals s customerId).1 + (dyeingTotals s customerId).1,
     (invoiceTotals s customerId).2 + (dyeingTotals s customerId).2,
     pendingAmount s customerId))

/-! ## Payment application (`PaymentModal.handleSubmit`) -/

/-- The two validation failures of the payment modal, tagged with the toast
message the source shows. -/
inductive PaymentError where
  | invalidAmount
  | overpayment
  deriving DecidableEq, Repr

/-- Function `PaymentModal.handleSubmit`.  `totalOutstanding` is the prop the modal was
opened with; `paymentAmount` is the parsed amount.  On a validation failure
the function returns before any insert or update, so the store is unchanged.
On success it inserts the payment row, reads the stored customer
`total_credit`, and writes back `max 0 (total_credit - paymentAmount)` — an
incremental, zero-clamped patch. -/
def handleSubmitPayment (s : Store) (customerId customerName : String)
    (totalOutstanding paymentAmount : ℚ) (paymentDate notes userId : String) :
    Store × Option PaymentError :=
  if paymentAmount ≤ 0 then (s, some .invalidAmount)
  else if totalOutstanding < paymentAmount then (s, some .overpayment)
  else
    let s1 : Store :=
      { s with
        payments := s.payments ++
          [{ customer_id := customerId, amount := paymentAmount,
             payment_date := paymentDate, payment_method := "cash",
             notes := if notes = ""
               then "Payment received from " ++ customerName else notes,
             created_by := userId }] }
    let credit : ℚ :=
      ((s1.customers.find? (fun c => c.id = customerId)).map
        (fun c => c.total_credit)).getD 0
    let newCredit : ℚ := max 0 (credit - paymentAmount)
    ({ s1 with
       customers := s1.customers.map (fun c =>
         if c.id = customerId then { c with total_credit := newCredit } else c) },
     none)

/-! ## Invoice and dyeing-bill creation
Line-item editing state of the two forms, the invoice tax split, and the
records written on submit. -/

/-- The GST type selector of the invoice form. -/
inductive GstType where
  | CGST_SGST
  | IGST
  deriving DecidableEq, Repr

/-- An entry of the `items` state of the invoice form. -/
structure InvItem where
  id : String
  item_name : String
  hsn_code : String
  quantity : ℚ
  rate : ℚ
  amount : ℚ
  deriving DecidableEq, Repr

/-- A fresh invoice line item as produced by the initial state and `addItem`. -/
def freshInvItem (uuid : String) : InvItem :=
  { id := uuid, item_name := "", hsn_code := "", quantity := 1, rate := 0,
    amount := 0 }

/-- Initial `items` state of the invoice form. -/
def initialInvItems (uuid : String) : List InvItem := [freshInvItem uuid]

/-- Operation `addItem` of the invoice form. -/
def addInvItem (uuid : String) (items : List InvItem) : List InvItem :=
  items ++ [freshInvItem uuid]

/-- Operation `removeItem` of the invoice form: only removes while more than one item
remains. -/
def removeInvItem (id : String) (items : List InvItem) : List InvItem :=
  if 1 < items.length then items.filter (fun it => ¬ it.id = id) else items

/-- Operation `updateItem` on the `item_name` field. -/
def updateInvItemName (id v : String) (items : List InvItem) : List InvItem :=
  items.map (fun it => if it.id = id then { it with item_name := v } else it)

/-- Operation `updateItem` on the `hsn_code` field. -/
def updateInvItemHsn (id v : String) (items : List InvItem) : List InvItem :=
  items.map (fun it => if it.id = id then { it with hsn_code := v } else it)

/-- Operation `updateItem` on the `quantity` field: the amount is recomputed as
`quantity * rate` of the updated item. -/
def updateInvItemQuantity (id : String) (v : ℚ) (items : List InvItem) :
    List InvItem :=
  items.map (fun it =>
    if it.id = id then
      let u := { it with quantity := v }
      { u with amount := u.quantity * u.rate }
    else it)

/-- Operation `updateItem` on the `rate` field: the amount is recomputed as
`quantity * rate` of the updated item. -/
def updateInvItemRate (id : String) (v : ℚ) (items : List InvItem) :
    List InvItem :=
  items.map (fun it =>
    if it.id = id then
      let u := { it with rate := v }
      { u with amount := u.quantity * u.rate }
    else it)

/-- The invoice form states reachable through the UI operations: the initial
single fresh item, adding, removing, and the four `updateItem` call sites. -/
inductive InvItemsReachable : List InvItem → Prop where
  | init (uuid : String) : InvItemsReachable (initialInvItems uuid)
  | add {items} (uuid : String) :
      InvItemsReachable items → InvItemsReachable (addInvItem uuid items)
  | remove {items} (id : String) :
      InvItemsReachable items → InvItemsReachable (removeInvItem id items)
  | upName {items} (id v : String) :
      InvItemsReachable items → InvItemsReachable (updateInvItemName id v items)
  | upHsn {items} (id v : String) :
      InvItemsReachable items → InvItemsReachable (updateInvItemHsn id v items)
  | upQuantity {items} (id : String) (v : ℚ) :
      InvItemsReachable items →
      InvItemsReachable (updateInvItemQuantity id v items)
  | upRate {items} (id : String) (v : ℚ) :
      InvItemsReachable items → InvItemsReachable (updateInvItemRate id v items)

/-- Function `calculateSubtotal`: reduce of the item amounts. -/
def calculateSubtotal (items : List InvItem) : ℚ :=
  items.foldl (fun sum item => sum + item.amount) 0

/-- Function `calculateGST`: the full GST rate applied to the subtotal. -/
def calculateGST (items : List InvItem) (gstRate : ℚ) : ℚ :=
  calculateSubtotal items * gstRate / 100

/-- Function `calculateTotal`: subtotal plus GST. -/
def calculateTotal (items : List InvItem) (gstRate : ℚ) : ℚ :=
  calculateSubtotal items + calculateGST items gstRate

/-- The invoice record assembled by `handleSubmit` of the invoice form
(`invoiceData`). -/
structure InvoiceRecord where
  invoice_number : String
  customer_id : String
  invoice_date : String
  gst_type : GstType
  subtotal : ℚ
  total_amount : ℚ
  status : String
  notes : String
  created_by : String
  cgst_rate : Option ℚ
  cgst_amount : Option ℚ
  sgst_rate : Option ℚ
  sgst_amount : Option ℚ
  igst_rate : Option ℚ
  igst_amount : Option ℚ
  deriving DecidableEq, Repr

/-- Record `invoiceData` built by `handleSubmit` of the invoice form: for intrastate
(CGST+SGST) invoices half the rate and half the GST amount on each side, with
the IGST fields null; for interstate (IGST) invoices the full rate and amount,
with the CGST/SGST fields null. -/
def mkInvoiceData (invoiceNumber customerId invoiceDate : String)
    (gstType : GstType) (gstRate : ℚ) (items : List InvItem)
    (notes userId : String) : InvoiceRecord :=
  let subtotal := calculateSubtotal items
  let gstAmount := calculateGST items gstRate
  let totalAmount := calculateTotal items gstRate
  { invoice_number := invoiceNumber, customer_id := customerId,
    invoice_date := invoiceDate, gst_type := gstType, subtotal := subtotal,
    total_amount := totalAmount, status := "pending", notes := notes,
    created_by := userId,
    cgst_rate := match gstType with
      | .CGST_SGST => some (gstRate / 2)
      | .IGST => none,
    cgst_amount := match gstType with
      | .CGST_SGST => some (gstAmount / 2)
      | .IGST => none,
    sgst_rate := match gstType with
      | .CGST_SGST => some (gstRate / 2)
      | .IGST => none,
    sgst_amount := match gstType with
      | .CGST_SGST => some (gstAmount / 2)
      | .IGST => none,
    igst_rate := match gstType with
      | .CGST_SGST => none
      | .IGST => some gstRate,
    igst_amount := match gstType with
      | .CGST_SGST => none
      | .IGST => some gstAmount }

/-- A row of `invoice_items` as written by `handleSubmit` (`itemsData`). -/
structure InvoiceItemRow where
  invoice_id : String
  item_name : String
  hsn_code : String
  quantity : ℚ
  rate : ℚ
  amount : ℚ
  deriving DecidableEq, Repr

/-- Rows `itemsData` built by `handleSubmit` of the invoice form. -/
def mkInvoiceItemsData (invoiceId : String) (items : List InvItem) :
    List InvoiceItemRow :=
  items.map (fun item =>
    { invoice_id := invoiceId, item_name := item.item_name,
      hsn_code := item.hsn_code, quantity := item.quantity, rate := item.rate,
      amount := item.amount })

/-- An entry of the `items` state of the dyeing-bill form. -/
structure DyeItem where
  id : String
  product_name : String
  quantity : ℚ
  rate : ℚ
  amount : ℚ
  deriving DecidableEq, Repr

/-- A fresh dyeing line item as produced by the initial state and `addItem`. -/
def freshDyeItem (uuid : String) : DyeItem :=
  { id := uuid, product_name := "", quantity := 1, rate := 0, amount := 0 }

/-- Initial `items` state of the dyeing form. -/
def initialDyeItems (uuid : String) : List DyeItem := [freshDyeItem uuid]

/-- Operation `addItem` of the dyeing form. -/
def addDyeItem (uuid : String) (items : List DyeItem) : List DyeItem :=
  items ++ [freshDyeItem uuid]

/-- Operation `removeItem` of the dyeing form. -/
def removeDyeItem (id : String) (items : List DyeItem) : List DyeItem :=
  if 1 < items.length then items.filter (fun it => ¬ it.id = id) else items

/-- Operation `updateItem` on the `product_name` field. -/
def updateDyeItemName (id v : String) (items : List DyeItem) : List DyeItem :=
  items.map (fun it => if it.id = id then { it with product_name := v } else it)

/-- Operation `updateItem` on the `quantity` field of the dyeing form. -/
def updateDyeItemQuantity (id : String) (v : ℚ) (items : List DyeItem) :
    List DyeItem :=
  items.map (fun it =>
    if it.id = id then
      let u := { it with quantity := v }
      { u with amount := u.quantity * u.rate }
    else it)

/-- Operation `updateItem` on the `rate` field of the dyeing form. -/
def updateDyeItemRate (id : String) (v : ℚ) (items : List DyeItem) :
    List DyeItem :=
  items.map (fun it =>
    if it.id = id then
      let u := { it with rate := v }
      { u with amount := u.quantity * u.rate }
    else it)

/-- The dyeing form states reachable through the UI operations. -/
inductive DyeItemsReachable : List DyeItem → Prop where
  | init (uuid : String) : DyeItemsReachable (initialDyeItems uuid)
  | add {items} (uuid : String) :
      DyeItemsReachable items → DyeItemsReachable (addDyeItem uuid items)
  | remove {items} (id : String) :
      DyeItemsReachable items → DyeItemsReachable (removeDyeItem id items)
  | upName {items} (id v : String) :
      DyeItemsReachable items → DyeItemsReachable (updateDyeItemName id v items)
  | upQuantity {items} (id : String) (v : ℚ) :
      DyeItemsReachable items →
      DyeItemsReachable (updateDyeItemQuantity id v items)
  | upRate {items} (id : String) (v : ℚ) :
      DyeItemsReachable items → DyeItemsReachable (updateDyeItemRate id v items)

/-- Function `calculateTotal` of the dyeing form: reduce of the item amounts. -/
def calculateDyeTotal (items : List DyeItem) : ℚ :=
  items.foldl (fun sum item => sum + item.amount) 0

/-- The dyeing-bill record assembled by `handleSubmit` of the dyeing form
(`billData`). -/
structure DyeingBillRecord where
  bill_number : String
  customer_id : String
  bill_date : String
  total_amount : ℚ
  status : String
  notes : String
  created_by : String
  deriving DecidableEq, Repr

/-- Record `billData` built by `handleSubmit` of the dyeing form. -/
def mkBillData (billNumber customerId billDate : String)
    (items : List DyeItem) (notes userId : String) : DyeingBillRecord :=
  { bill_number := billNumber, customer_id := customerId,
    bill_date := billDate, total_amount := calculateDyeTotal items,
    status := "pending", notes := notes, created_by := userId }

/-- A row of `dyeing_bill_items` as written by `handleSubmit`. -/
structure DyeingBillItemRow where
  bill_id : String
  product_name : String
  quantity : ℚ
  rate : ℚ
  amount : ℚ
  deriving DecidableEq, Repr

/-- Rows `itemsData` built by `handleSubmit` of the dyeing form. -/
def mkDyeItemsData (billId : String) (items : List DyeItem) :
    List DyeingBillItemRow :=
  items.map (fun item =>
    { bill_id := billId, product_name := item.product_name,
      quantity := item.quantity, rate := item.rate, amount := item.amount })

/-! ### Sequencer lemmas: formatting round-trips through parsing -/

lemma digitVal_digitChar {n : Nat} (h : n < 10) :
    digitVal (Nat.digitChar n) = n := by
  interval_cases n <;> decide

lemma isDigit_digitChar {n : Nat} (h : n < 10) :
    (Nat.digitChar n).isDigit = true := by
  interval_cases n <;> decide

lemma ne_dash_of_isDigit {c : Char} (h : c.isDigit = true) : c ≠ '-' := by
  intro he
  subst he
  simp [Char.isDigit] at h

lemma natReprAux_ne_nil (fuel n : Nat) : natReprAux (fuel + 1) n ≠ [] := by
  rw [natReprAux]
  by_cases h : n < 10 <;> simp [h]

lemma natReprAux_digits (fuel : Nat) :
    ∀ n, ∀ c ∈ natReprAux fuel n, c.isDigit = true := by
  induction fuel with
  | zero => intro n c hc; simp [natReprAux] at hc
  | succ f ih =>
    intro n c hc
    rw [natReprAux] at hc
    by_cases h : n < 10
    · simp [h] at hc
      subst hc
      exact isDigit_digitChar h
    · simp [h] at hc
      rcases hc with hc | hc
      · exact ih _ c hc
      · subst hc
        exact isDigit_digitChar (Nat.mod_lt _ (by norm_num))

lemma natRepr_ne_nil (n : Nat) : natRepr n ≠ [] := natReprAux_ne_nil n n

lemma natRepr_digits (n : Nat) : ∀ c ∈ natRepr n, c.isDigit = true :=
  natReprAux_digits (n + 1) n

lemma natReprAux_foldl (fuel : Nat) :
    ∀ n, n < 10 ^ fuel → ∀ acc : Nat,
      (natReprAux fuel n).foldl (fun a c => a * 10 + digitVal c) acc
        = acc * 10 ^ (natReprAux fuel n).length + n := by
  induction fuel with
  | zero =>
    intro n h acc
    have hn : n = 0 := by simpa using Nat.lt_one_iff.mp h
    subst hn
    simp [natReprAux]
  | succ f ih =>
    intro n h acc
    rw [natReprAux]
    by_cases h10 : n < 10
    · simp [h10, List.foldl, digitVal_digitChar h10]
    · have hdiv : n / 10 < 10 ^ f := by
        rw [Nat.div_lt_iff_lt_mul (by norm_num)]
        calc n < 10 ^ (f + 1) := h
          _ = 10 ^ f * 10 := by ring
      simp only [h10, if_false, List.foldl_append, List.length_append,
        List.foldl_cons, List.foldl_nil, List.length_cons, List.length_nil]
      rw [ih _ hdiv acc, digitVal_digitChar (Nat.mod_lt _ (by norm_num))]
      have := Nat.div_add_mod n 10
      ring_nf
      omega

lemma natRepr_foldl (n : Nat) (acc : Nat) :
    (natRepr n).foldl (fun a c => a * 10 + digitVal c) acc
      = acc * 10 ^ (natRepr n).length + n := by
  have hfuel : n < 10 ^ (n + 1) := by
    calc n < 10 ^ n := Nat.lt_pow_self (by norm_num) n
    _ ≤ 10 ^ (n + 1) := Nat.pow_le_pow_right (by norm_num) (Nat.le_succ n)
  exact natReprAux_foldl (n + 1) n hfuel acc

lemma takeWhile_of_all {p : Char → Bool} :
    ∀ {l : List Char}, (∀ c ∈ l, p c = true) → l.takeWhile p = l := by
  intro l
  induction l with
  | nil => intro; rfl
  | cons c cs ih =>
    intro h
    have hc : p c = true := h c (List.mem_cons_self c cs)
    simp [List.takeWhile_cons, hc, ih (fun d hd => h d (List.mem_cons_of_mem _ hd))]

lemma foldl_zeros (m : Nat) :
    (List.replicate m '0').foldl (fun a c => a * 10 + digitVal c) 0 = 0 := by
  induction m with
  | zero => rfl
  | succ k ih => simpa [List.replicate_succ] using ih

lemma padStart_digits (n : Nat) :
    ∀ c ∈ padStart 5 '0' (natRepr n), c.isDigit = true := by
  intro c hc
  rcases List.mem_append.mp hc with hc | hc
  · have := List.eq_of_mem_replicate hc
    subst this
    decide
  · exact natRepr_digits n c hc

lemma jsParseInt_padStart_natRepr (n : Nat) :
    jsParseInt (padStart 5 '0' (natRepr n)) = some n := by
  unfold jsParseInt
  rw [takeWhile_of_all (padStart_digits n)]
  have hne : padStart 5 '0' (natRepr n) ≠ [] := by
    unfold padStart
    intro h
    rcases List.append_eq_nil.mp h with ⟨-, h2⟩
    exact natRepr_ne_nil n h2
  rw [if_neg (by simpa [List.isEmpty_iff] using hne)]
  unfold padStart
  rw [List.foldl_append, foldl_zeros, natRepr_foldl]
  simp

lemma dash_not_mem_padStart (n : Nat) :
    '-' ∉ padStart 5 '0' (natRepr n) := by
  intro h
  exact ne_dash_of_isDigit (padStart_digits n '-' h) rfl

lemma jsSplit_ne_nil (sep : Char) (l : List Char) : jsSplit sep l ≠ [] := by
  cases l with
  | nil => simp [jsSplit]
  | cons c rest =>
    rw [jsSplit]
    cases jsSplit sep rest with
    | nil => simp
    | cons h t => by_cases hc : c = sep <;> simp [hc]

lemma jsSplit_no_sep (sep : Char) :
    ∀ {l : List Char}, sep ∉ l → jsSplit sep l = [l] := by
  intro l
  induction l with
  | nil => intro; rfl
  | cons c cs ih =>
    intro h
    have hc : c ≠ sep := fun he => h (he ▸ List.mem_cons_self c cs)
    rw [jsSplit, ih (fun hm => h (List.mem_cons_of_mem _ hm))]
    simp [hc]

lemma jsSplit_append (sep : Char) :
    ∀ {p : List Char}, sep ∉ p → ∀ rest,
      jsSplit sep (p ++ sep :: rest) = p :: jsSplit sep rest := by
  intro p
  induction p with
  | nil =>
    intro _ rest
    rw [List.nil_append, jsSplit]
    rcases hsp : jsSplit sep rest with _ | ⟨h, t⟩
    · exact absurd hsp (jsSplit_ne_nil sep rest)
    · simp
  | cons c cs ih =>
    intro h rest
    have hc : c ≠ sep := fun he => h (he ▸ List.mem_cons_self c cs)
    rw [List.cons_append, jsSplit, ih (fun hm => h (List.mem_cons_of_mem _ hm)) rest]
    simp [hc]

/-- Reading back a well-formed number `pfx-NNNNN` yields the next number in
sequence, as long as the prefix itself contains no dash. -/
lemma generateNumber_succ {pfx : List Char} (hp : '-' ∉ pfx) (n : Nat) :
    generateNumber pfx (.ok (some (fmtNumber pfx n))) = fmtNumber pfx (n + 1) := by
  have hsplit : jsSplit '-' (pfx ++ '-' :: padStart 5 '0' (natRepr n))
      = [pfx, padStart 5 '0' (natRepr n)] := by
    rw [jsSplit_append '-' hp, jsSplit_no_sep '-' (dash_not_mem_padStart n)]
  simp [generateNumber, fmtNumber, hsplit, jsParseInt_padStart_natRepr n]

lemma issueDocs_eq_fmtDesc {pfx : List Char} (hp : '-' ∉ pfx) :
    ∀ n, issueDocs pfx n = fmtDesc pfx n := by
  intro n
  induction n with
  | zero => rfl
  | succ k ih =>
    have hgen : generateNumber pfx (.ok (fmtDesc pfx k).head?)
        = fmtNumber pfx (k + 1) := by
      cases k with
      | zero =>
        have hpad : padStart 5 '0' (natRepr 1) = ['0', '0', '0', '0', '1'] := by
          decide
        simp [fmtDesc, generateNumber, fmtNumber, hpad]
      | succ m =>
        have hhead : (fmtDesc pfx (m + 1)).head? = some (fmtNumber pfx (m + 1)) := by
          simp [fmtDesc]
        rw [hhead]
        exact generateNumber_succ hp (m + 1)
    simp only [issueDocs, ih, hgen, fmtDesc]

lemma fmtDesc_reverse (pfx : List Char) :
    ∀ n, (fmtDesc pfx n).reverse
      = (List.range n).map (fun i => fmtNumber pfx (i + 1)) := by
  intro n
  induction n with
  | zero => rfl
  | succ k ih =>
    rw [fmtDesc, List.reverse_cons, ih, List.range_succ, List.map_append]
    rfl

/-! ## Claim theorems: document sequencer -/

/-- C6, counterexample: the claim is false for prefixes that themselves
contain a dash, which the configurable prefix may.  With prefix A-B the
second issued number is A-B-00NaN (split on dash picks the middle segment B,
parseInt gives NaN), and with prefix INV-2024 the second issued number is
INV-2024-02025 (the middle segment 2024 is parsed instead of the numeric
suffix): in both cases the second number differs from the claimed
pfx-00002, so the sequence is neither gapless nor of the claimed shape. -/
theorem sequencer_dash_prefix_counterexample :
    (issueDocs "A-B".data 2).reverse
      = ["A-B-00001".data, "A-B-00NaN".data] ∧
    "A-B-00NaN".data ≠ fmtNumber "A-B".data 2 ∧
    (issueDocs "INV-2024".data 2).reverse
      = ["INV-2024-00001".data, "INV-2024-02025".data] ∧
    "INV-2024-02025".data ≠ fmtNumber "INV-2024".data 2 := by
  decide

/-- C6, amended: for every prefix that contains no dash, with no prior
document the sequencer returns the prefix followed by -00001; reading back a
well-formed number pfx-NNNNN it parses the suffix, increments by 1 and
re-pads to 5 digits; hence issuing N documents of one class with one such
prefix starting from an empty store yields, in creation order, exactly the
strictly increasing gapless numbers pfx-00001 through pfx-N.  (For a prefix
containing a dash the split-on-dash suffix parse derails the sequence, as
the counterexample shows.) -/
theorem sequencer_gapless (pfx : List Char) (hp : '-' ∉ pfx) :
    generateNumber pfx (.ok none) = fmtNumber pfx 1 ∧
    (∀ n, generateNumber pfx (.ok (some (fmtNumber pfx n)))
      = fmtNumber pfx (n + 1)) ∧
    ∀ N, (issueDocs pfx N).reverse
      = (List.range N).map (fun i => fmtNumber pfx (i + 1)) := by
  refine ⟨?_, generateNumber_succ hp, ?_⟩
  · have hpad : padStart 5 '0' (natRepr 1) = ['0', '0', '0', '0', '1'] := by decide
    simp [generateNumber, fmtNumber, hpad]
  · intro N
    rw [issueDocs_eq_fmtDesc hp N, fmtDesc_reverse]

/-- Witness for C6 (amended): three invoices issued from an empty store with
the dash-free prefix INV are numbered INV-00001, INV-00002, INV-00003 in
creation order. -/
theorem sequencer_gapless_witness :
    ('-' ∉ "INV".data) ∧
    (issueDocs "INV".data 3).reverse
      = ["INV-00001".data, "INV-00002".data, "INV-00003".data] := by
  refine ⟨by decide, ?_⟩
  rw [(sequencer_gapless "INV".data (by decide)).2.2 3]
  decide

/-- C5: the code does not fail loudly on a corrupt stored number.  When the
suffix of the last stored number does not parse (split on dash gives a
non-numeric part), parseInt yields NaN and both sequencers silently return
the generated string pfx-00NaN instead of raising any error. -/
theorem sequencer_corrupt_suffix_silent :
    generateInvoiceNumber (some "INV".data) (.ok (some "INV-ABCDE".data))
      = "INV-00NaN".data ∧
    generateInvoiceNumber (some "INV".data) (.ok (some "INVX00007".data))
      = "INV-00NaN".data ∧
    generateBillNumber (some "DYE".data) (.ok (some "DYE-ABCDE".data))
      = "DYE-00NaN".data := by
  decide

/-- C10: when the read of the most recent document errors, both sequencers
swallow the failure and return the first number of the sequence,
pfx-00001, regardless of what the store contains. -/
theorem sequencer_read_error_restarts (invoiceCfg dyeingCfg : Option (List Char))
    (e : Unit) :
    generateInvoiceNumber invoiceCfg (.error e)
      = resolvedPfx invoiceCfg "INV".data ++ '-' :: ['0', '0', '0', '0', '1'] ∧
    generateBillNumber dyeingCfg (.error e)
      = resolvedPfx dyeingCfg "DYE".data ++ '-' :: ['0', '0', '0', '0', '1'] := by
  exact ⟨rfl, rfl⟩

/-! ## Claim theorems: GSTIN validation -/

/-- C4, counterexample: the claim as stated fails on the code in two places.
The empty input string is rejected with the distinct required error before
the length check ever runs, so not every non-15-character input gets the
length error; and the state table has 38 entries, not 35. -/
theorem gstin_claim_counterexample :
    validateGSTNumber "" = .invalid "GST number is required" ∧
    GSTResult.invalid "GST number is required"
      ≠ .invalid "GST number must be exactly 15 characters" ∧
    STATE_CODES.length = 38 ∧ STATE_CODES.length ≠ 35 := by
  decide

/-- C4, amended: for every nonempty input string, validateGSTNumber first
uppercases and trims it, then fails with the length error unless the result
is exactly 15 characters, else fails with the format error unless the
structural pattern matches, else fails with the unknown-state error unless
the leading two digits are in the fixed 38-entry state table, else succeeds
returning the state code, resolved state name, PAN (characters 3 to 12) and
entity code (character 13); the three failure kinds carry pairwise distinct
error strings; 27AAAAA0000A1Z5 resolves to Maharashtra and 99AAAAA0000A1Z5
fails with the unknown-state error. -/
theorem gstin_decode_cascade (gstin : String) (hne : gstin ≠ "") :
    ((jsTrim (jsUpper gstin.data)).length ≠ 15 →
      validateGSTNumber gstin
        = .invalid "GST number must be exactly 15 characters") ∧
    ((jsTrim (jsUpper gstin.data)).length = 15 →
      gstRegexTest (jsTrim (jsUpper gstin.data)) = false →
      validateGSTNumber gstin = .invalid "Invalid GST number format") ∧
    ((jsTrim (jsUpper gstin.data)).length = 15 →
      gstRegexTest (jsTrim (jsUpper gstin.data)) = true →
      lookupState (String.mk ((jsTrim (jsUpper gstin.data)).take 2)) = none →
      validateGSTNumber gstin = .invalid "Invalid state code in GST number") ∧
    (∀ nm, (jsTrim (jsUpper gstin.data)).length = 15 →
      gstRegexTest (jsTrim (jsUpper gstin.data)) = true →
      lookupState (String.mk ((jsTrim (jsUpper gstin.data)).take 2)) = some nm →
      validateGSTNumber gstin
        = .valid (String.mk ((jsTrim (jsUpper gstin.data)).take 2)) nm
            (String.mk (((jsTrim (jsUpper gstin.data)).drop 2).take 10))
            (String.mk (((jsTrim (jsUpper gstin.data)).drop 12).take 1))) ∧
    ("GST number must be exactly 15 characters" ≠ "Invalid GST number format" ∧
     "GST number must be exactly 15 characters"
       ≠ "Invalid state code in GST number" ∧
     "Invalid GST number format" ≠ "Invalid state code in GST number") ∧
    validateGSTNumber "27AAAAA0000A1Z5"
      = .valid "27" "Maharashtra" "AAAAA0000A" "1" ∧
    validateGSTNumber "99AAAAA0000A1Z5"
      = .invalid "Invalid state code in GST number" ∧
    STATE_CODES.length = 38 := by
  refine ⟨?_, ?_, ?_, ?_, by decide, by decide, by decide, by decide⟩
  · intro hlen
    simp [validateGSTNumber, hne, hlen]
  · intro hlen hfmt
    simp [validateGSTNumber, hne, hlen, hfmt]
  · intro hlen hfmt hlook
    simp [validateGSTNumber, hne, hlen, hfmt, hlook]
  · intro nm hlen hfmt hlook
    simp [validateGSTNumber, hne, hlen, hfmt, hlook]

/-- Witness for C4 (amended): the canonical Maharashtra example, with the
length, format and state-lookup conditions discharged concretely. -/
theorem gstin_decode_cascade_witness :
    ("27AAAAA0000A1Z5" : String) ≠ "" ∧
    validateGSTNumber "27AAAAA0000A1Z5"
      = .valid "27" "Maharashtra" "AAAAA0000A" "1" := by
  refine ⟨by decide, ?_⟩
  have h := (gstin_decode_cascade "27AAAAA0000A1Z5" (by decide)).2.2.2.1
    "Maharashtra" (by decide) (by decide) (by decide)
  rw [h]
  decide

/-! ## Claim theorems: ledger recomputation -/

lemma foldl_pair_sum {α : Type} (f g : α → ℚ) :
    ∀ (l : List α) (a b : ℚ),
      l.foldl (fun acc x => (acc.1 + f x, acc.2 + g x)) (a, b)
        = (a + (l.map f).sum, b + (l.map g).sum) := by
  intro l
  induction l with
  | nil => simp
  | cons x xs ih =>
    intro a b
    rw [List.foldl_cons, ih]
    simp only [List.map_cons, List.sum_cons, Prod.mk.injEq]
    constructor <;> ring

lemma sum_map_sub {α : Type} (f g : α → ℚ) (l : List α) :
    (l.map (fun x => f x - g x)).sum = (l.map f).sum - (l.map g).sum := by
  induction l with
  | nil => simp
  | cons x xs ih =>
    simp only [List.map_cons, List.sum_cons, ih]
    ring

/-- The pending amount written by the reconciler is the claimed aggregate. -/
lemma pendingAmount_eq (s : Store) (cid : String) :
    pendingAmount s cid
      = ((s.invoices.filter (fun i => i.customer_id = cid)).map
          (fun i => i.total_amount - i.paid_amount)).sum
        + ((s.dyeing_bills.filter (fun b => b.customer_id = cid)).map
          (fun b => b.total_amount - b.paid_amount)).sum := by
  unfold pendingAmount invoiceTotals dyeingTotals
  rw [foldl_pair_sum, foldl_pair_sum, sum_map_sub, sum_map_sub]
  ring

/-- C1: recomputing the ledger writes, onto every customer row with the given
id, exactly the sum over that customer of invoice totalAmount minus
paidAmount plus the sum over that customer of dyeing-bill totalAmount minus
paidAmount; and the written value is a full replacement — it does not depend
on the previously stored customer rows at all. -/
theorem ledger_recompute_aggregate (s : Store) (cid : String) :
    (∀ c ∈ (updateCustomerCredit s cid).customers, c.id = cid →
      c.total_credit
        = ((s.invoices.filter (fun i => i.customer_id = cid)).map
            (fun i => i.total_amount - i.paid_amount)).sum
          + ((s.dyeing_bills.filter (fun b => b.customer_id = cid)).map
            (fun b => b.total_amount - b.paid_amount)).sum) ∧
    (∀ cs : List CustomerRow,
      pendingAmount { s with customers := cs } cid = pendingAmount s cid) := by
  constructor
  · intro c hc hid
    rw [updateCustomerCredit] at hc
    simp only [List.mem_map] at hc
    obtain ⟨x, -, hx⟩ := hc
    by_cases hxid : x.id = cid
    · rw [← hx, if_pos hxid]
      exact pendingAmount_eq s cid
    · rw [← hx, if_neg hxid] at hid
      exact absurd hid hxid
  · intro cs
    rfl

/-- The concrete store used to witness the ledger claims: customer c1 has two
invoices (100 billed / 20 paid and 50 billed, belonging to c2) and one dyeing
bill (30 billed / 5 paid), with a stale stored credit of 7. -/
def ledgerStore : Store :=
  { invoices := [{ customer_id := "c1", total_amount := 100, paid_amount := 20 },
                 { customer_id := "c2", total_amount := 50, paid_amount := 0 }],
    dyeing_bills := [{ customer_id := "c1", total_amount := 30, paid_amount := 5 }],
    customers := [{ id := "c1", total_credit := 7 }],
    payments := [] }

/-- Witness for C1: recomputing on the concrete store replaces the stale
stored credit 7 of c1 with the aggregate (100-20) + (30-5) = 105. -/
theorem ledger_recompute_aggregate_witness :
    ({ id := "c1", total_credit := 105 } : CustomerRow)
      ∈ (updateCustomerCredit ledgerStore "c1").customers ∧
    (105 : ℚ)
      = ((ledgerStore.invoices.filter (fun i => i.customer_id = "c1")).map
          (fun i => i.total_amount - i.paid_amount)).sum
        + ((ledgerStore.dyeing_bills.filter (fun b => b.customer_id = "c1")).map
          (fun b => b.total_amount - b.paid_amount)).sum := by
  have hcs : (updateCustomerCredit ledgerStore "c1").customers
      = [{ id := "c1", total_credit := 105 }] := by
    simp [updateCustomerCredit, ledgerStore, pendingAmount, invoiceTotals,
      dyeingTotals]
    norm_num
  have hmem : ({ id := "c1", total_credit := 105 } : CustomerRow)
      ∈ (updateCustomerCredit ledgerStore "c1").customers := by
    rw [hcs]
    exact List.mem_singleton.mpr rfl
  refine ⟨hmem, ?_⟩
  have h := (ledger_recompute_aggregate ledgerStore "c1").1
    { id := "c1", total_credit := 105 } hmem rfl
  simpa using h

/-- Setting the credit of the matching customer rows to a fixed value is
idempotent. -/
lemma map_update_idem (cid : String) (v : ℚ) (cs : List CustomerRow) :
    ((cs.map (fun c => if c.id = cid then { c with total_credit := v } else c)).map
      (fun c => if c.id = cid then { c with total_credit := v } else c))
      = cs.map (fun c => if c.id = cid then { c with total_credit := v } else c) := by
  rw [List.map_map]
  apply List.map_congr_left
  intro c hc
  simp only [Function.comp_apply]
  by_cases h : c.id = cid <;> simp [h]

/-- C9: running the dyeing-page ledger recomputation twice in a row with no
intervening writes returns the same (totalBilled, totalPaid, pendingAmount)
triple both times and leaves the store — in particular the customer record —
in the same state after the second call as after the first. -/
theorem ledger_recompute_idempotent (s : Store) (cid : String) :
    (updateCustomerCreditDyeing (updateCustomerCreditDyeing s cid).1 cid).2
      = (updateCustomerCreditDyeing s cid).2 ∧
    (updateCustomerCreditDyeing (updateCustomerCreditDyeing s cid).1 cid).1
      = (updateCustomerCreditDyeing s cid).1 := by
  obtain ⟨inv, dye, cs, pay⟩ := s
  refine ⟨rfl, ?_⟩
  simp only [updateCustomerCreditDyeing, updateCustomerCredit]
  congr 1
  exact map_update_idem cid _ cs

/-! ## Claim theorems: payment application -/

/-- The payment row inserted by a successful submit. -/
def mkPaymentRow (customerId customerName : String) (amt : ℚ)
    (paymentDate notes userId : String) : PaymentRow :=
  { customer_id := customerId, amount := amt, payment_date := paymentDate,
    payment_method := "cash",
    notes := if notes = "" then "Payment received from " ++ customerName
      else notes,
    created_by := userId }

/-- C2, amended: a successful payment inserts the payment row and then
patches the stored customer balance incrementally to
max 0 (previously stored credit - amount) — a delta clamped at zero, not a
full recomputation of the aggregate over invoices and dyeing bills. -/
theorem payment_incremental_clamped (s : Store) (cid cname : String)
    (out amt : ℚ) (pd notes uid : String) (c0 : CustomerRow)
    (hfind : s.customers.find? (fun c => c.id = cid) = some c0)
    (hpos : 0 < amt) (hle : amt ≤ out) :
    (handleSubmitPayment s cid cname out amt pd notes uid).2 = none ∧
    (handleSubmitPayment s cid cname out amt pd notes uid).1.payments
      = s.payments ++ [mkPaymentRow cid cname amt pd notes uid] ∧
    ∀ c ∈ (handleSubmitPayment s cid cname out amt pd notes uid).1.customers,
      c.id = cid → c.total_credit = max 0 (c0.total_credit - amt) := by
  have h1 : ¬ amt ≤ 0 := not_le.mpr hpos
  have h2 : ¬ out < amt := not_lt.mpr hle
  refine ⟨?_, ?_, ?_⟩
  · simp [handleSubmitPayment, h1, h2]
  · simp [handleSubmitPayment, h1, h2, mkPaymentRow]
  · intro c hc hid
    simp only [handleSubmitPayment, if_neg h1, if_neg h2, List.mem_map] at hc
    obtain ⟨x, -, hx⟩ := hc
    by_cases hxid : x.id = cid
    · rw [← hx, if_pos hxid]
      simp [hfind]
    · rw [← hx, if_neg hxid] at hid
      exact absurd hid hxid

/-- The store used by the payment counterexample and witnesses: customer c1
with stored credit 100 and one invoice of 200 with nothing paid (so the
recomputed aggregate for c1 is 200). -/
def paymentStore : Store :=
  { invoices := [{ customer_id := "c1", total_amount := 200, paid_amount := 0 }],
    dyeing_bills := [],
    customers := [{ id := "c1", total_credit := 100 }],
    payments := [] }

/-- C2, counterexample: on the concrete store a successful payment of 50
leaves the stored balance at 100 - 50 = 50, while the recomputed aggregate
over the customer invoices and dyeing bills is 200 — so the stored balance
after applyPayment is not the recomputed aggregate. -/
theorem payment_not_reconciled_counterexample :
    (handleSubmitPayment paymentStore "c1" "A" 100 50 "2026-01-01" "" "u").2
      = none ∧
    (handleSubmitPayment paymentStore "c1" "A" 100 50 "2026-01-01" "" "u").1.customers
      = [{ id := "c1", total_credit := 50 }] ∧
    pendingAmount
      (handleSubmitPayment paymentStore "c1" "A" 100 50 "2026-01-01" "" "u").1
      "c1" = 200 ∧
    (50 : ℚ) ≠ 200 := by
  have h1 : ¬ (50 : ℚ) ≤ 0 := by norm_num
  have h2 : ¬ (100 : ℚ) < 50 := by norm_num
  refine ⟨by simp [handleSubmitPayment, h1, h2], ?_, ?_, by norm_num⟩
  · simp [handleSubmitPayment, h1, h2, paymentStore]
    norm_num
  · simp [handleSubmitPayment, h1, h2, paymentStore, pendingAmount,
      invoiceTotals, dyeingTotals]

/-- Witness for C2 (amended): the concrete successful payment of 50 against
stored credit 100 stores max 0 (100 - 50) = 50. -/
theorem payment_incremental_clamped_witness :
    paymentStore.customers.find? (fun c => c.id = "c1")
      = some { id := "c1", total_credit := 100 } ∧
    (0 : ℚ) < 50 ∧ (50 : ℚ) ≤ 100 ∧
    (handleSubmitPayment paymentStore "c1" "A" 100 50 "2026-01-01" "" "u").2
      = none ∧
    ∀ c ∈ (handleSubmitPayment paymentStore "c1" "A" 100 50 "2026-01-01" ""
        "u").1.customers,
      c.id = "c1" →
        c.total_credit
          = max 0 ((({ id := "c1", total_credit := 100 } : CustomerRow)).total_credit
              - 50) := by
  have hfind : paymentStore.customers.find? (fun c => c.id = "c1")
      = some { id := "c1", total_credit := 100 } := by
    simp [paymentStore]
  have h := payment_incremental_clamped paymentStore "c1" "A" 100 50
    "2026-01-01" "" "u" { id := "c1", total_credit := 100 } hfind
    (by norm_num) (by norm_num)
  exact ⟨hfind, by norm_num, by norm_num, h.1, h.2.2⟩

/-- C3: with the outstanding-balance prop equal to the stored credit of the
customer (read-then-validate), the payment modal rejects before any write —
store returned unchanged — with the invalid-amount error for every amount
at most 0, and with the overpayment error for every positive amount strictly
above the outstanding balance; a payment of exactly the outstanding balance
succeeds and drives the stored balance to exactly 0; and outstanding + 0.01
is rejected with the overpayment error. -/
theorem payment_validation_boundary (s : Store) (cid cname : String)
    (out amt : ℚ) (pd notes uid : String) (c0 : CustomerRow)
    (hfind : s.customers.find? (fun c => c.id = cid) = some c0)
    (hout : out = c0.total_credit) :
    (amt ≤ 0 →
      handleSubmitPayment s cid cname out amt pd notes uid
        = (s, some .invalidAmount)) ∧
    (0 < amt → out < amt →
      handleSubmitPayment s cid cname out amt pd notes uid
        = (s, some .overpayment)) ∧
    (amt = out → 0 < amt →
      (handleSubmitPayment s cid cname out amt pd notes uid).2 = none ∧
      ∀ c ∈ (handleSubmitPayment s cid cname out amt pd notes uid).1.customers,
        c.id = cid → c.total_credit = 0) ∧
    (0 ≤ out →
      handleSubmitPayment s cid cname out (out + 1 / 100) pd notes uid
        = (s, some .overpayment)) := by
  refine ⟨?_, ?_, ?_, ?_⟩
  · intro h
    simp [handleSubmitPayment, h]
  · intro h0 hover
    simp [handleSubmitPayment, not_le.mpr h0, hover]
  · intro heq h0
    have h1 : ¬ amt ≤ 0 := not_le.mpr h0
    have h2 : ¬ out < amt := not_lt.mpr (le_of_eq heq)
    constructor
    · simp [handleSubmitPayment, h1, h2]
    · intro c hc hid
      simp only [handleSubmitPayment, if_neg h1, if_neg h2, List.mem_map] at hc
      obtain ⟨x, -, hx⟩ := hc
      by_cases hxid : x.id = cid
      · rw [← hx, if_pos hxid]
        simp [hfind, heq, hout]
      · rw [← hx, if_neg hxid] at hid
        exact absurd hid hxid
  · intro hnn
    have h1 : ¬ out + 1 / 100 ≤ 0 := by
      intro h
      nlinarith
    have h2 : out < out + 1 / 100 := by nlinarith
    simp only [handleSubmitPayment, if_neg h1, if_pos h2]

/-- Witness for C3: against stored credit 100, paying -5 is rejected with the
invalid-amount error, paying 150 with the overpayment error, paying 100.01
with the overpayment error, and paying exactly 100 succeeds and stores 0. -/
theorem payment_validation_boundary_witness :
    paymentStore.customers.find? (fun c => c.id = "c1")
      = some { id := "c1", total_credit := 100 } ∧
    (100 : ℚ)
      = ({ id := "c1", total_credit := 100 } : CustomerRow).total_credit ∧
    handleSubmitPayment paymentStore "c1" "A" 100 (-5) "d" "" "u"
      = (paymentStore, some .invalidAmount) ∧
    handleSubmitPayment paymentStore "c1" "A" 100 150 "d" "" "u"
      = (paymentStore, some .overpayment) ∧
    handleSubmitPayment paymentStore "c1" "A" 100 (100 + 1 / 100) "d" "" "u"
      = (paymentStore, some .overpayment) ∧
    (handleSubmitPayment paymentStore "c1" "A" 100 100 "d" "" "u").2 = none ∧
    ∀ c ∈ (handleSubmitPayment paymentStore "c1" "A" 100 100 "d" "" "u").1.customers,
      c.id = "c1" → c.total_credit = 0 := by
  have hfind : paymentStore.customers.find? (fun c => c.id = "c1")
      = some { id := "c1", total_credit := 100 } := by
    simp [paymentStore]
  have h := payment_validation_boundary paymentStore "c1" "A" 100 (-5) "d" ""
    "u" { id := "c1", total_credit := 100 } hfind rfl
  have h100 := payment_validation_boundary paymentStore "c1" "A" 100 100 "d" ""
    "u" { id := "c1", total_credit := 100 } hfind rfl
  have h150 := payment_validation_boundary paymentStore "c1" "A" 100 150 "d" ""
    "u" { id := "c1", total_credit := 100 } hfind rfl
  refine ⟨hfind, rfl, h.1 (by norm_num), h150.2.1 (by norm_num) (by norm_num),
    h.2.2.2 (by norm_num), (h100.2.2.1 rfl (by norm_num)).1,
    (h100.2.2.1 rfl (by norm_num)).2⟩

/-! ## Claim theorems: tax calculation -/

/-- C7: for nonnegative subtotal and a rate between 0 and 100, the intrastate
split populates CGST and SGST each with subtotal * (rate/2) / 100, the
interstate split populates IGST with subtotal * rate / 100, CGST equals
SGST, CGST + SGST equals the interstate IGST for the same inputs, and the
grand total (subtotal plus populated tax) is the same in both modes. -/
theorem tax_split_consistent (num cid dt notes uid : String)
    (items : List InvItem) (gstRate : ℚ)
    (hsub : 0 ≤ calculateSubtotal items) (hr0 : 0 ≤ gstRate)
    (hr1 : gstRate ≤ 100) :
    (mkInvoiceData num cid dt .CGST_SGST gstRate items notes uid).cgst_amount
      = some (calculateSubtotal items * (gstRate / 2) / 100) ∧
    (mkInvoiceData num cid dt .CGST_SGST gstRate items notes uid).sgst_amount
      = some (calculateSubtotal items * (gstRate / 2) / 100) ∧
    (mkInvoiceData num cid dt .IGST gstRate items notes uid).igst_amount
      = some (calculateSubtotal items * gstRate / 100) ∧
    (mkInvoiceData num cid dt .CGST_SGST gstRate items notes uid).cgst_amount
      = (mkInvoiceData num cid dt .CGST_SGST gstRate items notes uid).sgst_amount ∧
    (mkInvoiceData num cid dt .CGST_SGST gstRate items notes
        uid).cgst_amount.getD 0
      + (mkInvoiceData num cid dt .CGST_SGST gstRate items notes
        uid).sgst_amount.getD 0
      = (mkInvoiceData num cid dt .IGST gstRate items notes
        uid).igst_amount.getD 0 ∧
    (mkInvoiceData num cid dt .CGST_SGST gstRate items notes uid).total_amount
      = (mkInvoiceData num cid dt .IGST gstRate items notes uid).total_amount := by
  refine ⟨?_, ?_, rfl, rfl, ?_, rfl⟩
  · simp only [mkInvoiceData, calculateGST]
    congr 1
    ring
  · simp only [mkInvoiceData, calculateGST]
    congr 1
    ring
  · simp only [mkInvoiceData, calculateGST, Option.getD_some]
    ring

/-- The line items of the end-to-end tax scenario: one item of quantity 2 at
rate 500, amount 1000. -/
def taxItems : List InvItem :=
  [{ id := "i1", item_name := "Cloth", hsn_code := "5007", quantity := 2,
     rate := 500, amount := 1000 }]

/-- Witness for C7: subtotal 1000 at rate 18 gives CGST = SGST = 90,
IGST = 180, and a grand total of 1180 in both modes. -/
theorem tax_split_consistent_witness :
    (0 : ℚ) ≤ calculateSubtotal taxItems ∧ (0 : ℚ) ≤ 18 ∧ (18 : ℚ) ≤ 100 ∧
    (mkInvoiceData "n" "c1" "d" .CGST_SGST 18 taxItems "" "u").cgst_amount
      = some 90 ∧
    (mkInvoiceData "n" "c1" "d" .CGST_SGST 18 taxItems "" "u").sgst_amount
      = some 90 ∧
    (mkInvoiceData "n" "c1" "d" .IGST 18 taxItems "" "u").igst_amount
      = some 180 ∧
    (mkInvoiceData "n" "c1" "d" .CGST_SGST 18 taxItems "" "u").total_amount
      = 1180 ∧
    (mkInvoiceData "n" "c1" "d" .IGST 18 taxItems "" "u").total_amount
      = 1180 := by
  have hsub : (0 : ℚ) ≤ calculateSubtotal taxItems := by
    norm_num [calculateSubtotal, taxItems]
  have h := tax_split_consistent "n" "c1" "d" "" "u" taxItems 18 hsub
    (by norm_num) (by norm_num)
  refine ⟨hsub, by norm_num, by norm_num, ?_, ?_, ?_, ?_, ?_⟩
  · rw [h.1]
    congr 1
    norm_num [calculateSubtotal, taxItems]
  · rw [h.2.1]
    congr 1
    norm_num [calculateSubtotal, taxItems]
  · rw [h.2.2.1]
    congr 1
    norm_num [calculateSubtotal, taxItems]
  · norm_num [mkInvoiceData, calculateTotal, calculateGST, calculateSubtotal,
      taxItems]
  · rw [← h.2.2.2.2.2]
    norm_num [mkInvoiceData, calculateTotal, calculateGST, calculateSubtotal,
      taxItems]

/-! ## Claim theorems: invariants of created records -/

lemma foldl_add_eq {α : Type} (f : α → ℚ) :
    ∀ (l : List α) (a : ℚ),
      l.foldl (fun s x => s + f x) a = a + (l.map f).sum := by
  intro l
  induction l with
  | nil => simp
  | cons x xs ih =>
    intro a
    rw [List.foldl_cons, ih, List.map_cons, List.sum_cons]
    ring

/-- Every reachable state of the invoice form keeps the per-item equation
amount = quantity * rate. -/
lemma invItems_amount_eq {items : List InvItem} (h : InvItemsReachable items) :
    ∀ it ∈ items, it.amount = it.quantity * it.rate := by
  induction h with
  | init uuid =>
    intro it hit
    simp only [initialInvItems, List.mem_singleton] at hit
    subst hit
    simp [freshInvItem]
  | add uuid hr ih =>
    intro it hit
    rcases List.mem_append.mp hit with hit | hit
    · exact ih it hit
    · simp only [List.mem_singleton] at hit
      subst hit
      simp [freshInvItem]
  | remove id hr ih =>
    intro it hit
    unfold removeInvItem at hit
    by_cases hl : 1 < (by assumption : List InvItem).length
    all_goals {
      first
      | (rw [if_pos hl] at hit
         exact ih it (List.mem_filter.mp hit).1)
      | (rw [if_neg hl] at hit
         exact ih it hit)
    }
  | upName id v hr ih =>
    intro it hit
    simp only [updateInvItemName, List.mem_map] at hit
    obtain ⟨x, hx, hxe⟩ := hit
    by_cases hid : x.id = id
    · rw [← hxe, if_pos hid]
      exact ih x hx
    · rw [← hxe, if_neg hid]
      exact ih x hx
  | upHsn id v hr ih =>
    intro it hit
    simp only [updateInvItemHsn, List.mem_map] at hit
    obtain ⟨x, hx, hxe⟩ := hit
    by_cases hid : x.id = id
    · rw [← hxe, if_pos hid]
      exact ih x hx
    · rw [← hxe, if_neg hid]
      exact ih x hx
  | upQuantity id v hr ih =>
    intro it hit
    simp only [updateInvItemQuantity, List.mem_map] at hit
    obtain ⟨x, hx, hxe⟩ := hit
    by_cases hid : x.id = id
    · rw [← hxe, if_pos hid]
    · rw [← hxe, if_neg hid]
      exact ih x hx
  | upRate id v hr ih =>
    intro it hit
    simp only [updateInvItemRate, List.mem_map] at hit
    obtain ⟨x, hx, hxe⟩ := hit
    by_cases hid : x.id = id
    · rw [← hxe, if_pos hid]
    · rw [← hxe, if_neg hid]
      exact ih x hx

/-- Every reachable state of the dyeing form keeps the per-item equation
amount = quantity * rate. -/
lemma dyeItems_amount_eq {items : List DyeItem} (h : DyeItemsReachable items) :
    ∀ it ∈ items, it.amount = it.quantity * it.rate := by
  induction h with
  | init uuid =>
    intro it hit
    simp only [initialDyeItems, List.mem_singleton] at hit
    subst hit
    simp [freshDyeItem]
  | add uuid hr ih =>
    intro it hit
    rcases List.mem_append.mp hit with hit | hit
    · exact ih it hit
    · simp only [List.mem_singleton] at hit
      subst hit
      simp [freshDyeItem]
  | remove id hr ih =>
    intro it hit
    unfold removeDyeItem at hit
    by_cases hl : 1 < (by assumption : List DyeItem).length
    all_goals {
      first
      | (rw [if_pos hl] at hit
         exact ih it (List.mem_filter.mp hit).1)
      | (rw [if_neg hl] at hit
         exact ih it hit)
    }
  | upName id v hr ih =>
    intro it hit
    simp only [updateDyeItemName, List.mem_map] at hit
    obtain ⟨x, hx, hxe⟩ := hit
    by_cases hid : x.id = id
    · rw [← hxe, if_pos hid]
      exact ih x hx
    · rw [← hxe, if_neg hid]
      exact ih x hx
  | upQuantity id v hr ih =>
    intro it hit
    simp only [updateDyeItemQuantity, List.mem_map] at hit
    obtain ⟨x, hx, hxe⟩ := hit
    by_cases hid : x.id = id
    · rw [← hxe, if_pos hid]
    · rw [← hxe, if_neg hid]
      exact ih x hx
  | upRate id v hr ih =>
    intro it hit
    simp only [updateDyeItemRate, List.mem_map] at hit
    obtain ⟨x, hx, hxe⟩ := hit
    by_cases hid : x.id = id
    · rw [← hxe, if_pos hid]
    · rw [← hxe, if_neg hid]
      exact ih x hx

/-- Total tax populated on an invoice record: the fields of the unused mode
are null and contribute nothing. -/
def writtenTaxAmount (r : InvoiceRecord) : ℚ :=
  r.cgst_amount.getD 0 + r.sgst_amount.getD 0 + r.igst_amount.getD 0

/-- C8: every invoice record written at creation satisfies
totalAmount = subtotal + taxAmount, the subtotal is the sum of the written
line-item amounts, every written line item satisfies
amount = quantity * rate, and the CGST/SGST and IGST field groups are
mutually exclusive (the unused side null); every dyeing bill written at
creation satisfies totalAmount = sum of its written line-item amounts, with
the same per-item equation. -/
theorem created_records_consistent (items : List InvItem)
    (ditems : List DyeItem) (hi : InvItemsReachable items)
    (hd : DyeItemsReachable ditems)
    (num cid dt notes uid invId bnum bdate bnotes bUid billId : String)
    (gstRate : ℚ) (gstType : GstType) :
    (mkInvoiceData num cid dt gstType gstRate items notes uid).total_amount
      = (mkInvoiceData num cid dt gstType gstRate items notes uid).subtotal
        + writtenTaxAmount
            (mkInvoiceData num cid dt gstType gstRate items notes uid) ∧
    (mkInvoiceData num cid dt gstType gstRate items notes uid).subtotal
      = ((mkInvoiceItemsData invId items).map (fun r => r.amount)).sum ∧
    (∀ r ∈ mkInvoiceItemsData invId items, r.amount = r.quantity * r.rate) ∧
    ((mkInvoiceData num cid dt .CGST_SGST gstRate items notes
        uid).cgst_amount.isSome = true ∧
      (mkInvoiceData num cid dt .CGST_SGST gstRate items notes
        uid).sgst_amount.isSome = true ∧
      (mkInvoiceData num cid dt .CGST_SGST gstRate items notes
        uid).igst_amount = none ∧
      (mkInvoiceData num cid dt .CGST_SGST gstRate items notes
        uid).igst_rate = none) ∧
    ((mkInvoiceData num cid dt .IGST gstRate items notes
        uid).igst_amount.isSome = true ∧
      (mkInvoiceData num cid dt .IGST gstRate items notes
        uid).cgst_amount = none ∧
      (mkInvoiceData num cid dt .IGST gstRate items notes
        uid).sgst_amount = none ∧
      (mkInvoiceData num cid dt .IGST gstRate items notes
        uid).cgst_rate = none ∧
      (mkInvoiceData num cid dt .IGST gstRate items notes
        uid).sgst_rate = none) ∧
    (mkBillData bnum cid bdate ditems bnotes bUid).total_amount
      = ((mkDyeItemsData billId ditems).map (fun r => r.amount)).sum ∧
    (∀ r ∈ mkDyeItemsData billId ditems, r.amount = r.quantity * r.rate) := by
  refine ⟨?_, ?_, ?_, ⟨rfl, rfl, rfl, rfl⟩, ⟨rfl, rfl, rfl, rfl, rfl⟩, ?_, ?_⟩
  · cases gstType <;>
      · simp only [mkInvoiceData, writtenTaxAmount, calculateTotal,
          Option.getD_some, Option.getD_none]
        ring
  · simp only [mkInvoiceData, calculateSubtotal, mkInvoiceItemsData,
      List.map_map]
    rw [foldl_add_eq]
    rw [zero_add]
    congr 1
  · intro r hr
    simp only [mkInvoiceItemsData, List.mem_map] at hr
    obtain ⟨x, hx, hxe⟩ := hr
    rw [← hxe]
    exact invItems_amount_eq hi x hx
  · simp only [mkBillData, calculateDyeTotal, mkDyeItemsData, List.map_map]
    rw [foldl_add_eq]
    rw [zero_add]
    congr 1
  · intro r hr
    simp only [mkDyeItemsData, List.mem_map] at hr
    obtain ⟨x, hx, hxe⟩ := hr
    rw [← hxe]
    exact dyeItems_amount_eq hd x hx

/-- Witness for C8: the initial single-item states of both forms, submitted
intrastate at rate 18. -/
theorem created_records_consistent_witness :
    InvItemsReachable (initialInvItems "a") ∧
    DyeItemsReachable (initialDyeItems "b") ∧
    ((mkInvoiceData "n" "c1" "d" .CGST_SGST 18 (initialInvItems "a") ""
        "u").total_amount
      = (mkInvoiceData "n" "c1" "d" .CGST_SGST 18 (initialInvItems "a") ""
          "u").subtotal
        + writtenTaxAmount
            (mkInvoiceData "n" "c1" "d" .CGST_SGST 18 (initialInvItems "a") ""
              "u") ∧
    (mkInvoiceData "n" "c1" "d" .CGST_SGST 18 (initialInvItems "a") ""
        "u").subtotal
      = ((mkInvoiceItemsData "inv1" (initialInvItems "a")).map
          (fun r => r.amount)).sum ∧
    (∀ r ∈ mkInvoiceItemsData "inv1" (initialInvItems "a"),
      r.amount = r.quantity * r.rate) ∧
    ((mkInvoiceData "n" "c1" "d" .CGST_SGST 18 (initialInvItems "a") ""
        "u").cgst_amount.isSome = true ∧
      (mkInvoiceData "n" "c1" "d" .CGST_SGST 18 (initialInvItems "a") ""
        "u").sgst_amount.isSome = true ∧
      (mkInvoiceData "n" "c1" "d" .CGST_SGST 18 (initialInvItems "a") ""
        "u").igst_amount = none ∧
      (mkInvoiceData "n" "c1" "d" .CGST_SGST 18 (initialInvItems "a") ""
        "u").igst_rate = none) ∧
    ((mkInvoiceData "n" "c1" "d" .IGST 18 (initialInvItems "a") ""
        "u").igst_amount.isSome = true ∧
      (mkInvoiceData "n" "c1" "d" .IGST 18 (initialInvItems "a") ""
        "u").cgst_amount = none ∧
      (mkInvoiceData "n" "c1" "d" .IGST 18 (initialInvItems "a") ""
        "u").sgst_amount = none ∧
      (mkInvoiceData "n" "c1" "d" .IGST 18 (initialInvItems "a") ""
        "u").cgst_rate = none ∧
      (mkInvoiceData "n" "c1" "d" .IGST 18 (initialInvItems "a") ""
        "u").sgst_rate = none) ∧
    (mkBillData "m" "c1" "d" (initialDyeItems "b") "" "u").total_amount
      = ((mkDyeItemsData "b1" (initialDyeItems "b")).map
          (fun r => r.amount)).sum ∧
    (∀ r ∈ mkDyeItemsData "b1" (initialDyeItems "b"),
      r.amount = r.quantity * r.rate)) :=
  ⟨.init "a", .init "b",
    created_records_consistent (initialInvItems "a") (initialDyeItems "b")
      (.init "a") (.init "b") "n" "c1" "d" "" "u" "inv1" "m" "d" "" "u" "b1"
      18 .CGST_SGST⟩

end Billing
